import Mathlib

/-!
Shallow embedding of `src/nbp/main.c` from the freeabode repository: the
backplate bridge that translates device callbacks into published events,
serves state snapshots to new subscribers, applies batched wire-control
requests, and runs a blocking-poll loop with a 30-second periodic-refresh
timer.

External collaborators (the nest device-session library, zmq, the protobuf
layer) are represented abstractly: the device session's `set wire` operation
is an oracle parameter threaded through state, the tri-state wire-assertion
query is a field of `DeviceState`, and emission of an event is modelled by
returning the event record that the C code hands to `zmq_send_protobuf`.
Machine integers (`uint16_t` readings, `uint8_t` flags) are `Nat` values;
none of the arithmetic in the embedded code can overflow its C type for the
value ranges those types admit, and `int32_t` Fahrenheit arithmetic is `Int`.
-/

namespace FreeAbode

/-- `enum fabd_tristate` from the freeabode utility layer:
`FTS_FALSE = false`, `FTS_TRUE = true`, plus `FTS_UNKNOWN`. -/
inductive FabdTristate where
  | fts_false
  | fts_true
  | fts_unknown
  deriving DecidableEq, Repr

/-- The boolean a tri-state converts to when stored into a protobuf bool
field (C truthiness of the enum value: `FTS_TRUE = 1` is the only truthy
non-unknown value). -/
def FabdTristate.toBool : FabdTristate → Bool
  | .fts_true => true
  | _ => false

/-- `PbWeather` message: optional temperature (centi-degC) and humidity
(deci-%), each guarded by a `has_` flag as in the generated protobuf-c
struct. -/
structure PbWeather where
  has_temperature : Bool := false
  temperature : Nat := 0
  has_humidity : Bool := false
  humidity : Nat := 0
  deriving DecidableEq, Repr

/-- `PbBattery` message: optional charging flag and voltage (mV). -/
structure PbBattery where
  has_charging : Bool := false
  charging : Bool := false
  has_voltage : Bool := false
  voltage : Nat := 0
  deriving DecidableEq, Repr

/-- `PbSetHVACWireRequest` message: a wire id and a desired connect
boolean. -/
structure PbSetHVACWireRequest where
  wire : Nat
  connect : Bool
  deriving DecidableEq, Repr

/-- `PbEvent` message as constructed in `main.c`: optional weather and
battery sub-records and a `wire_change` list (`n_wire_change` entries).
`PB_EVENT__INIT` corresponds to every field absent/empty. -/
structure PbEvent where
  weather : Option PbWeather := none
  battery : Option PbBattery := none
  wire_change : List PbSetHVACWireRequest := []
  deriving DecidableEq, Repr

/-- The device-session state read by `main.c` through the `nbp` pointer:
latest weather reading (`has_weather`, `temperature`, `humidity`), latest
power reading (`has_powerinfo`, `power_flags`, `vb_mV`), and the tri-state
asserted value of each wire as answered by `nbp_get_fet_asserted`. -/
structure DeviceState where
  has_weather : Bool := false
  temperature : Nat := 0
  humidity : Nat := 0
  has_powerinfo : Bool := false
  power_flags : Nat := 0
  vb_mV : Nat := 0
  fetAsserted : Nat → FabdTristate := fun _ => .fts_unknown

/-- A `DeviceState` holding no data at all: no weather reading, no power
reading, every wire's asserted state unknown. -/
def DeviceState.empty : DeviceState := {}

/-! ## Control Request Handler (`handle_req`, main.c lines 102-114)

The device session's `nbp_control_fet` is external; it is modelled as a
stateful oracle `σ → Nat → Bool → σ × Bool` so that the order of
invocations is observable through the threaded state. -/

/-- The reply-building loop of `handle_req`: for each request item in order,
invoke `nbp_control_fet` on its `(wire, connect)` pair against the current
device-session state and record the boolean result at the same index.
Returns the final session state and the `sethvacwiresuccess` list. -/
def handle_req {σ : Type} (nbp_control_fet : σ → Nat → Bool → σ × Bool) :
    σ → List PbSetHVACWireRequest → σ × List Bool
  | s, [] => (s, [])
  | s, item :: rest =>
    let r := nbp_control_fet s item.wire item.connect
    let p := handle_req nbp_control_fet r.1 rest
    (p.1, r.2 :: p.2)

/-! ## Snapshot Builder (`got_new_subscriber`, main.c lines 116-175)

`PB_HVACWIRES___COUNT` is the cardinality of the generated `PbHVACWires`
protobuf enum; it is kept abstract as a `count` parameter. -/

/-- The wire-change loop of `got_new_subscriber` (lines 150-166): for
`i = 0, 1, ..., count - 1` in order, query `nbp_get_fet_asserted`; skip the
wire if the answer is `FTS_UNKNOWN`, otherwise append an entry with
`wire = i` and `connect = asserted`. -/
def buildWireChanges (count : Nat) (fetAsserted : Nat → FabdTristate) :
    List PbSetHVACWireRequest :=
  (List.range count).filterMap fun i =>
    match fetAsserted i with
    | .fts_unknown => none
    | t => some { wire := i, connect := t.toBool }

/-- The `pbevent` record built by `got_new_subscriber` (lines 128-167):
weather sub-record iff `has_weather`, battery sub-record iff
`has_powerinfo` (charging iff bit 6 of the stored flags is clear), and the
wire-change list from `buildWireChanges`. -/
def snapshotEvent (count : Nat) (nbp : DeviceState) : PbEvent :=
  { weather :=
      if nbp.has_weather then
        some { has_temperature := true, temperature := nbp.temperature,
               has_humidity := true, humidity := nbp.humidity }
      else none,
    battery :=
      if nbp.has_powerinfo then
        some { has_charging := true,
               charging := decide (nbp.power_flags &&& 0x40 = 0),
               has_voltage := true, voltage := nbp.vb_mV }
      else none,
    wire_change := buildWireChanges count nbp.fetAsserted }

/-- `got_new_subscriber`: on a subscription-notification message (a byte
list), return `none` (no event emitted) when the message is empty or its
first byte is zero; otherwise emit the snapshot event. -/
def got_new_subscriber (count : Nat) (nbp : DeviceState) (msg : List Nat) :
    Option PbEvent :=
  match msg with
  | [] => none
  | b :: _ =>
    if b = 0 then none
    else some (snapshotEvent count nbp)

/-! ## Event Encoder callbacks (main.c lines 56-85) -/

/-- Modelled from the spec: the device session (outside `src/`) records the
latest weather reading into `DeviceState` when a weather message arrives —
"updates DeviceState"; the `has_weather` flag is set together with the two
values. -/
def nbp_store_weather (st : DeviceState) (temperature humidity : Nat) :
    DeviceState :=
  { st with has_weather := true, temperature := temperature,
            humidity := humidity }

/-- Modelled from the spec: the device session (outside `src/`) records the
latest power reading into `DeviceState` when a power-status message
arrives; the `has_powerinfo` flag is set together with the raw flags byte
and the battery voltage. -/
def nbp_store_power (st : DeviceState) (flags vb_mV : Nat) : DeviceState :=
  { st with has_powerinfo := true, power_flags := flags, vb_mV := vb_mV }

/-- `msg_weather` (lines 56-69): the numbers interpolated into the log line
`"Temperature %3d.%02d C (%4d.%03d F)    Humidity: %d.%d%%"` — with the
Fahrenheit value computed in `int32_t` as `temperature * 90 / 5 + 32000` —
paired with the emitted event, which carries exactly the weather sub-record
with the callback's temperature and humidity unchanged. -/
def msg_weather (temperature humidity : Nat) :
    (Nat × Nat × Int × Int × Nat × Nat) × PbEvent :=
  let fahrenheit : Int := (temperature : Int) * 90 / 5 + 32000
  ((temperature / 100, temperature % 100, fahrenheit / 1000,
    fahrenheit % 1000, humidity / 10, humidity % 10),
   { weather := some { has_temperature := true, temperature := temperature,
                       has_humidity := true, humidity := humidity } })

/-- `msg_power_status` (lines 71-85): of the many raw arguments, only
`flags` and `vb_mV` reach the emitted event — a battery sub-record with
`charging = !(flags & 0x40)` (true iff bit 6 clear) and
`voltage = vb_mV`. -/
def msg_power_status (_state : Nat) (flags : Nat) (_px0 : Nat) (_u1 : Nat)
    (_u2 : Nat) (_u3 : Nat) (_vi_cV : Nat) (_vo_mV : Nat) (vb_mV : Nat)
    (_pins : Nat) (_wires : Nat) : PbEvent :=
  { battery := some { has_charging := true,
                      charging := decide (flags &&& 0x40 = 0),
                      has_voltage := true, voltage := vb_mV } }

/-! ## Bridge Loop and reset-complete (main.c lines 15-29, 40-49, 215-229)

Time is a monotonic-clock instant in milliseconds (`timespec` values are
compared and advanced only through `timespec_passed` / `timespec_add_ms`,
whose millisecond semantics this captures). -/

/-- `static const int periodic_req_interval = 30;` (seconds). -/
def periodic_req_interval : Nat := 30

/-- Observable actions of the bridge toward its collaborators, in the order
the code performs them. -/
inductive BridgeAction where
  | sendPeriodic
  | unregisterFetHandler
  | bindPublisher
  deriving DecidableEq, Repr

/-- The bridge's process-wide mutable state relevant to the reset/timer
logic: whether `cb_msg_fet_presence` still points at `reset_complete`,
the `ts_next_periodic_req` deadline (ms), and whether the publish channel
has been bound to its configured address. -/
structure BridgeState where
  fetHandlerRegistered : Bool
  nextPeriodicReq : Nat
  publisherBound : Bool
  deriving DecidableEq, Repr

/-- `request_periodic` (lines 21-29): set `ts_next_periodic_req` to
`now + periodic_req_interval * 1000` ms and send one `NBPM_REQ_PERIODIC`
message. Returns the updated state and the emitted actions. -/
def request_periodic (now : Nat) (bs : BridgeState) :
    BridgeState × List BridgeAction :=
  ({ bs with nextPeriodicReq := now + periodic_req_interval * 1000 },
   [.sendPeriodic])

/-- `reset_complete` (lines 40-49): clear `cb_msg_fet_presence`, then
`request_periodic`, then bind the publish channel to its configured
address. The action list records that order. -/
def reset_complete (now : Nat) (bs : BridgeState) :
    BridgeState × List BridgeAction :=
  let bs1 := { bs with fetHandlerRegistered := false }
  let p := request_periodic now bs1
  ({ p.1 with publisherBound := true },
   .unregisterFetHandler :: p.2 ++ [.bindPublisher])

/-- Modelled from the spec: the device session (outside `src/`) delivers a
FET-presence (reset-complete) message to the registered
`cb_msg_fet_presence` handler only; with the handler cleared the delivery
is a no-op. -/
def deliver_fet_presence (now : Nat) (bs : BridgeState) :
    BridgeState × List BridgeAction :=
  if bs.fetHandlerRegistered then reset_complete now bs else (bs, [])

/-- Modelled from the spec: `timespec_passed` (freeabode utility layer,
outside `src/`) reports whether the deadline is at or before `now`. -/
def timespec_passed (deadline now : Nat) : Bool :=
  decide (deadline ≤ now)

/-- The timer step at the top of each `main` loop iteration (lines
217-220): if `ts_next_periodic_req` has passed at `now`, run
`request_periodic` (one refresh message, deadline rescheduled to
`now + 30s`); otherwise leave the deadline alone and send nothing. -/
def loop_timer_step (now : Nat) (bs : BridgeState) :
    BridgeState × List BridgeAction :=
  if timespec_passed bs.nextPeriodicReq now then request_periodic now bs
  else (bs, [])

/-- The three handlers `main` can dispatch to after a poll. -/
inductive Handler where
  | nbpRead
  | handleReq
  | gotNewSubscriber
  deriving DecidableEq, Repr

/-- The dispatch tail of a `main` loop iteration (lines 221-228): when
`zmq_poll` returns a count `≤ 0` the iteration `continue`s with no handler
run; otherwise each source flagged ready is dispatched once, device link
first, then control channel, then publish channel. -/
def loop_dispatch (pollResult : Int)
    (readyDevice readyCtl readyPub : Bool) : List Handler :=
  if pollResult ≤ 0 then []
  else (if readyDevice then [.nbpRead] else [])
    ++ (if readyCtl then [.handleReq] else [])
    ++ (if readyPub then [.gotNewSubscriber] else [])

/-- One full iteration of the `while (true)` loop (lines 215-229) as far as
the timer and dispatch decisions go: re-evaluate the periodic deadline at
`now`, then poll (result and per-source readiness supplied by the
environment) and dispatch. Returns the bridge state after the iteration,
the timer actions, and the handlers dispatched. -/
def bridge_iteration (now : Nat) (bs : BridgeState) (pollResult : Int)
    (readyDevice readyCtl readyPub : Bool) :
    BridgeState × List BridgeAction × List Handler :=
  let t := loop_timer_step now bs
  (t.1, t.2, loop_dispatch pollResult readyDevice readyCtl readyPub)

/-! ## Theorems -/

theorem handle_req_length {σ : Type} (f : σ → Nat → Bool → σ × Bool) (s : σ)
    (req : List PbSetHVACWireRequest) :
    (handle_req f s req).2.length = req.length := by
  induction req generalizing s with
  | nil => rfl
  | cons item rest ih => simp [handle_req, ih]

theorem handle_req_getElem? {σ : Type} (f : σ → Nat → Bool → σ × Bool)
    (s : σ) (req : List PbSetHVACWireRequest) (i : Nat) :
    (handle_req f s req).2[i]? =
      (req[i]?).map fun it =>
        (f (handle_req f s (req.take i)).1 it.wire it.connect).2 := by
  induction req generalizing s i with
  | nil => simp [handle_req]
  | cons item rest ih =>
    cases i with
    | zero => simp [handle_req]
    | succ j => simpa [handle_req] using ih (f s item.wire item.connect).1 j

/-- C1: for every decoded ControlRequest, the reply's success list has the
same length as the request's item list, and each index `i` holds the
boolean result of invoking the device session's set-wire oracle on the
`i`-th `(wire, connect)` pair — at the session state reached by processing
exactly the first `i` items in request order, so a failed item never
prevents a later invocation; the reply always exists, the empty request
yielding the empty reply. -/
theorem handle_req_reply_spec {σ : Type} (f : σ → Nat → Bool → σ × Bool)
    (s : σ) (req : List PbSetHVACWireRequest) :
    (handle_req f s req).2.length = req.length ∧
    ∀ i : Nat, (handle_req f s req).2[i]? =
      (req[i]?).map fun it =>
        (f (handle_req f s (req.take i)).1 it.wire it.connect).2 :=
  ⟨handle_req_length f s req, fun i => handle_req_getElem? f s req i⟩

theorem buildWireChanges_map_wire (count : Nat) (fa : Nat → FabdTristate) :
    (buildWireChanges count fa).map PbSetHVACWireRequest.wire
      = (List.range count).filter fun i =>
          decide (fa i ≠ FabdTristate.fts_unknown) := by
  unfold buildWireChanges
  induction List.range count with
  | nil => rfl
  | cons a l ih =>
    rw [List.filterMap_cons, List.filter_cons]
    cases h : fa a <;> simp [h, ih]

theorem buildWireChanges_mem_iff (count : Nat) (fa : Nat → FabdTristate)
    (e : PbSetHVACWireRequest) :
    e ∈ buildWireChanges count fa ↔
      ∃ i, i < count ∧ fa i ≠ FabdTristate.fts_unknown ∧
        e = { wire := i, connect := (fa i).toBool } := by
  unfold buildWireChanges
  rw [List.mem_filterMap]
  constructor
  · rintro ⟨a, ha, hg⟩
    refine ⟨a, List.mem_range.mp ha, ?_⟩
    cases h : fa a <;> rw [h] at hg <;> simp_all [FabdTristate.toBool]
  · rintro ⟨i, hi, hne, rfl⟩
    refine ⟨i, List.mem_range.mpr hi, ?_⟩
    cases h : fa i <;> simp_all [FabdTristate.toBool]

theorem buildWireChanges_count_eq_one (count : Nat) (fa : Nat → FabdTristate)
    (w : Nat) (hw : w < count) (hne : fa w ≠ FabdTristate.fts_unknown) :
    ((buildWireChanges count fa).map PbSetHVACWireRequest.wire).count w
      = 1 := by
  rw [buildWireChanges_map_wire]
  refine List.count_eq_one_of_mem ((List.nodup_range count).filter _) ?_
  simp [List.mem_filter, List.mem_range, hw, hne]

theorem buildWireChanges_connect (count : Nat) (fa : Nat → FabdTristate)
    (e : PbSetHVACWireRequest) (he : e ∈ buildWireChanges count fa) :
    fa e.wire ≠ FabdTristate.fts_unknown ∧
      e.connect = (fa e.wire).toBool := by
  obtain ⟨i, _, hne, rfl⟩ := (buildWireChanges_mem_iff count fa e).mp he
  exact ⟨hne, rfl⟩

theorem buildWireChanges_sorted (count : Nat) (fa : Nat → FabdTristate) :
    List.Sorted (· < ·)
      ((buildWireChanges count fa).map PbSetHVACWireRequest.wire) := by
  rw [buildWireChanges_map_wire]
  exact (List.sorted_lt_range count).filter _

theorem buildWireChanges_unknown_not_mem (count : Nat)
    (fa : Nat → FabdTristate) (w : Nat)
    (hw : fa w = FabdTristate.fts_unknown) :
    w ∉ (buildWireChanges count fa).map PbSetHVACWireRequest.wire := by
  rw [buildWireChanges_map_wire]
  intro hmem
  rw [List.mem_filter] at hmem
  simp [hw] at hmem

/-- C2: on a qualifying subscribe notification, the snapshot event's
wire-change list has exactly one entry for each wire id below the enum
count whose asserted tri-state is not unknown, each entry carries that
wire's asserted value as its connect boolean, entries are in strictly
ascending wire-id order, and every wire whose state is unknown is absent
from the list. -/
theorem got_new_subscriber_wire_list (count : Nat) (st : DeviceState)
    (b : Nat) (rest : List Nat) (hb : b ≠ 0) :
    ∃ ev, got_new_subscriber count st (b :: rest) = some ev ∧
      (∀ w, w < count → st.fetAsserted w ≠ FabdTristate.fts_unknown →
        ((ev.wire_change.map PbSetHVACWireRequest.wire).count w = 1)) ∧
      (∀ e ∈ ev.wire_change,
        st.fetAsserted e.wire ≠ FabdTristate.fts_unknown ∧
          e.connect = (st.fetAsserted e.wire).toBool) ∧
      List.Sorted (· < ·)
        (ev.wire_change.map PbSetHVACWireRequest.wire) ∧
      (∀ w, st.fetAsserted w = FabdTristate.fts_unknown →
        w ∉ ev.wire_change.map PbSetHVACWireRequest.wire) := by
  refine ⟨snapshotEvent count st,
    by simp [got_new_subscriber, hb], ?_, ?_, ?_, ?_⟩
  · exact fun w hw hne => buildWireChanges_count_eq_one count st.fetAsserted w hw hne
  · exact fun e he => buildWireChanges_connect count st.fetAsserted e he
  · exact buildWireChanges_sorted count st.fetAsserted
  · exact fun w hw => buildWireChanges_unknown_not_mem count st.fetAsserted w hw

/-- Witness for C2 at a concrete state: three wires, wire 0 asserted true,
wire 2 asserted false, wire 1 never observed; subscribe message `[1]`. -/
theorem got_new_subscriber_wire_list_witness :
    (1 : Nat) ≠ 0 ∧
    ∃ ev, got_new_subscriber 3
        { fetAsserted := fun i =>
            if i = 0 then .fts_true
            else if i = 2 then .fts_false
            else .fts_unknown }
        [1] = some ev ∧
      (∀ w, w < 3 →
        ({ fetAsserted := fun i =>
            if i = 0 then .fts_true
            else if i = 2 then .fts_false
            else .fts_unknown : DeviceState }).fetAsserted w ≠
            FabdTristate.fts_unknown →
        ((ev.wire_change.map PbSetHVACWireRequest.wire).count w = 1)) ∧
      (∀ e ∈ ev.wire_change,
        ({ fetAsserted := fun i =>
            if i = 0 then .fts_true
            else if i = 2 then .fts_false
            else .fts_unknown : DeviceState }).fetAsserted e.wire ≠
            FabdTristate.fts_unknown ∧
          e.connect =
            (({ fetAsserted := fun i =>
                if i = 0 then .fts_true
                else if i = 2 then .fts_false
                else .fts_unknown : DeviceState }).fetAsserted e.wire).toBool) ∧
      List.Sorted (· < ·)
        (ev.wire_change.map PbSetHVACWireRequest.wire) ∧
      (∀ w, ({ fetAsserted := fun i =>
            if i = 0 then .fts_true
            else if i = 2 then .fts_false
            else .fts_unknown : DeviceState }).fetAsserted w =
            FabdTristate.fts_unknown →
        w ∉ ev.wire_change.map PbSetHVACWireRequest.wire) :=
  ⟨by decide,
   got_new_subscriber_wire_list 3
     { fetAsserted := fun i =>
         if i = 0 then .fts_true
         else if i = 2 then .fts_false
         else .fts_unknown }
     1 [] (by decide)⟩

/-- A sequence of weather callbacks applied to a starting `DeviceState`:
each observation `(temperature, humidity)` is recorded by the device
session in arrival order. -/
def runWeather (st : DeviceState) (obs : List (Nat × Nat)) : DeviceState :=
  obs.foldl (fun s p => nbp_store_weather s p.1 p.2) st

theorem runWeather_last (obs : List (Nat × Nat)) (p : Nat × Nat)
    (hp : obs.getLast? = some p) (st : DeviceState) :
    (runWeather st obs).has_weather = true ∧
      (runWeather st obs).temperature = p.1 ∧
      (runWeather st obs).humidity = p.2 := by
  induction obs generalizing st with
  | nil => simp at hp
  | cons a l ih =>
    cases l with
    | nil =>
      simp at hp
      subst hp
      simp [runWeather, nbp_store_weather]
    | cons b m =>
      rw [List.getLast?_cons_cons] at hp
      exact ih hp (nbp_store_weather st a.1 a.2)

/-- C3: after any sequence of weather callbacks, the snapshot event for a
qualifying subscribe has its weather sub-record populated iff the device
state has a weather reading, and when the sequence is nonempty the
sub-record carries exactly the most recently observed
(temperature, humidity) pair. -/
theorem snapshot_weather_latest (count : Nat) (st0 : DeviceState)
    (obs : List (Nat × Nat)) (b : Nat) (rest : List Nat) (hb : b ≠ 0) :
    ∃ ev, got_new_subscriber count (runWeather st0 obs) (b :: rest)
        = some ev ∧
      (ev.weather.isSome = (runWeather st0 obs).has_weather) ∧
      (∀ p, obs.getLast? = some p →
        ev.weather = some { has_temperature := true, temperature := p.1,
                            has_humidity := true, humidity := p.2 }) := by
  refine ⟨snapshotEvent count (runWeather st0 obs),
    by simp [got_new_subscriber, hb], ?_, ?_⟩
  · cases h : (runWeather st0 obs).has_weather <;> simp [snapshotEvent, h]
  · intro p hp
    obtain ⟨h1, h2, h3⟩ := runWeather_last obs p hp st0
    simp [snapshotEvent, h1, h2, h3]

/-- Witness for C3: two weather callbacks `(2000, 300)` then `(2150, 455)`
starting from the empty device state; only the latest pair is reported. -/
theorem snapshot_weather_latest_witness :
    (1 : Nat) ≠ 0 ∧
    ∃ ev, got_new_subscriber 4
        (runWeather DeviceState.empty [(2000, 300), (2150, 455)]) [1]
        = some ev ∧
      (ev.weather.isSome
        = (runWeather DeviceState.empty
            [(2000, 300), (2150, 455)]).has_weather) ∧
      (∀ p : Nat × Nat,
        ([(2000, 300), (2150, 455)] : List (Nat × Nat)).getLast? = some p →
        ev.weather = some { has_temperature := true, temperature := p.1,
                            has_humidity := true, humidity := p.2 }) :=
  ⟨by decide,
   snapshot_weather_latest 4 DeviceState.empty [(2000, 300), (2150, 455)]
     1 [] (by decide)⟩

/-- C4: a reset-complete delivery to a registered handler unregisters the
handler first, then performs exactly one periodic refresh (scheduling the
deadline from the delivery time), and binds the publish channel only after
that — the action trace is exactly unregister, send-periodic, bind; a
second delivery then finds the handler cleared and is a strict no-op:
state unchanged, no periodic refresh, no re-binding. -/
theorem reset_complete_single_fire (now now2 : Nat) (bs : BridgeState)
    (h : bs.fetHandlerRegistered = true) :
    deliver_fet_presence now bs =
      ({ fetHandlerRegistered := false,
         nextPeriodicReq := now + periodic_req_interval * 1000,
         publisherBound := true },
       [.unregisterFetHandler, .sendPeriodic, .bindPublisher]) ∧
    deliver_fet_presence now2 (deliver_fet_presence now bs).1
      = ((deliver_fet_presence now bs).1, []) := by
  constructor
  · simp [deliver_fet_presence, reset_complete, request_periodic, h]
  · simp [deliver_fet_presence, reset_complete, request_periodic, h]

/-- Witness for C4 at the state right after startup: handler registered,
deadline cleared, publisher unbound; deliveries at 5000 ms and 9000 ms. -/
theorem reset_complete_single_fire_witness :
    ({ fetHandlerRegistered := true, nextPeriodicReq := 0,
       publisherBound := false : BridgeState }).fetHandlerRegistered
      = true ∧
    deliver_fet_presence 5000
        { fetHandlerRegistered := true, nextPeriodicReq := 0,
          publisherBound := false } =
      ({ fetHandlerRegistered := false, nextPeriodicReq := 35000,
         publisherBound := true },
       [.unregisterFetHandler, .sendPeriodic, .bindPublisher]) ∧
    deliver_fet_presence 9000
        (deliver_fet_presence 5000
          { fetHandlerRegistered := true, nextPeriodicReq := 0,
            publisherBound := false }).1
      = ((deliver_fet_presence 5000
          { fetHandlerRegistered := true, nextPeriodicReq := 0,
            publisherBound := false }).1, []) :=
  ⟨rfl,
   (reset_complete_single_fire 5000 9000
      { fetHandlerRegistered := true, nextPeriodicReq := 0,
        publisherBound := false } rfl).1,
   (reset_complete_single_fire 5000 9000
      { fetHandlerRegistered := true, nextPeriodicReq := 0,
        publisherBound := false } rfl).2⟩

/-- C5: in a loop iteration whose periodic deadline has passed at `now`,
exactly one periodic-refresh message is sent and the new deadline is
`now + 30000` ms — measured from the time the refresh fired, independent
of the prior deadline; if the deadline has not passed, nothing is sent and
the deadline is unchanged. -/
theorem loop_timer_step_spec (now : Nat) (bs : BridgeState) :
    (bs.nextPeriodicReq ≤ now →
      loop_timer_step now bs =
        ({ bs with nextPeriodicReq := now + 30000 }, [.sendPeriodic])) ∧
    (¬ bs.nextPeriodicReq ≤ now → loop_timer_step now bs = (bs, [])) := by
  constructor
  · intro h
    simp [loop_timer_step, timespec_passed, request_periodic,
      periodic_req_interval, h]
  · intro h
    simp [loop_timer_step, timespec_passed, request_periodic, h]

/-- Witness for C5: a deadline of 50000 ms has passed at 100000 ms and is
rescheduled to 130000 ms with one refresh sent; a deadline of 200000 ms
has not passed at 100000 ms and nothing happens. -/
theorem loop_timer_step_spec_witness :
    ((50000 : Nat) ≤ 100000 ∧
      loop_timer_step 100000
          { fetHandlerRegistered := false, nextPeriodicReq := 50000,
            publisherBound := true } =
        ({ fetHandlerRegistered := false, nextPeriodicReq := 130000,
           publisherBound := true }, [.sendPeriodic])) ∧
    (¬ (200000 : Nat) ≤ 100000 ∧
      loop_timer_step 100000
          { fetHandlerRegistered := false, nextPeriodicReq := 200000,
            publisherBound := true } =
        ({ fetHandlerRegistered := false, nextPeriodicReq := 200000,
           publisherBound := true }, [])) :=
  ⟨⟨by decide,
    (loop_timer_step_spec 100000
      { fetHandlerRegistered := false, nextPeriodicReq := 50000,
        publisherBound := true }).1 (by decide)⟩,
   ⟨by decide,
    (loop_timer_step_spec 100000
      { fetHandlerRegistered := false, nextPeriodicReq := 200000,
        publisherBound := true }).2 (by decide)⟩⟩

theorem buildWireChanges_eq_nil (count : Nat) (fa : Nat → FabdTristate)
    (hu : ∀ i, fa i = FabdTristate.fts_unknown) :
    buildWireChanges count fa = [] := by
  unfold buildWireChanges
  induction List.range count with
  | nil => rfl
  | cons a l ih => simp [List.filterMap_cons, hu a, ih]

/-- C6: a zero-length subscription-notification message emits no event; a
message whose first byte is `0x00` emits no event; a one-byte message
valued `0x01` received when the device state has no weather reading, no
power reading, and every wire unknown emits exactly one event with no
weather sub-record, no battery sub-record, and an empty wire-change
list. -/
theorem subscriber_boundary (count : Nat) (st : DeviceState)
    (rest : List Nat) (hw : st.has_weather = false)
    (hp : st.has_powerinfo = false)
    (hu : ∀ i, st.fetAsserted i = FabdTristate.fts_unknown) :
    got_new_subscriber count st [] = none ∧
    got_new_subscriber count st (0 :: rest) = none ∧
    got_new_subscriber count st [1] =
      some { weather := none, battery := none, wire_change := [] } := by
  refine ⟨rfl, by simp [got_new_subscriber], ?_⟩
  simp [got_new_subscriber, snapshotEvent, hw, hp,
    buildWireChanges_eq_nil count st.fetAsserted hu]

/-- Witness for C6 at the empty device state with two wires. -/
theorem subscriber_boundary_witness :
    DeviceState.empty.has_weather = false ∧
    DeviceState.empty.has_powerinfo = false ∧
    (∀ i, DeviceState.empty.fetAsserted i = FabdTristate.fts_unknown) ∧
    (got_new_subscriber 2 DeviceState.empty [] = none ∧
      got_new_subscriber 2 DeviceState.empty (0 :: [7]) = none ∧
      got_new_subscriber 2 DeviceState.empty [1] =
        some { weather := none, battery := none, wire_change := [] }) :=
  ⟨rfl, rfl, fun _ => rfl,
   subscriber_boundary 2 DeviceState.empty [7] rfl rfl fun _ => rfl⟩

/-- C7: a power-status callback with flags `F` and battery voltage `V`
emits exactly one event whose only populated sub-record is battery, with
charging true iff bit 6 (mask `0x40`) of `F` is clear and voltage `V`;
the Snapshot Builder populates the battery sub-record whenever the device
state has a power reading, deriving charging from the stored flags by the
identical bit-6-clear rule — in particular the snapshot of the state a
power callback stores has exactly the callback event's battery record. -/
theorem msg_power_status_spec (stv flags px0 u1 u2 u3 vi vo vb pins wires
    count : Nat) (st : DeviceState) :
    msg_power_status stv flags px0 u1 u2 u3 vi vo vb pins wires =
      { weather := none,
        battery := some { has_charging := true,
                          charging := decide (flags &&& 0x40 = 0),
                          has_voltage := true, voltage := vb },
        wire_change := [] } ∧
    (∀ pb, (msg_power_status stv flags px0 u1 u2 u3 vi vo vb
        pins wires).battery = some pb →
      (pb.charging = true ↔ flags &&& 0x40 = 0)) ∧
    (st.has_powerinfo = true →
      (snapshotEvent count st).battery =
        some { has_charging := true,
               charging := decide (st.power_flags &&& 0x40 = 0),
               has_voltage := true, voltage := st.vb_mV }) ∧
    (snapshotEvent count (nbp_store_power st flags vb)).battery =
      (msg_power_status stv flags px0 u1 u2 u3 vi vo vb
        pins wires).battery := by
  refine ⟨rfl, ?_, ?_, ?_⟩
  · intro pb hpb
    simp only [msg_power_status, Option.some.injEq] at hpb
    subst hpb
    simp
  · intro h
    simp [snapshotEvent, h]
  · simp [snapshotEvent, nbp_store_power, msg_power_status]

/-- Witness for C7: flags `0x41` (bit 6 set, so not charging) at 3700 mV,
and a stored power reading with flags `0x00` (bit 6 clear, charging). -/
theorem msg_power_status_spec_witness :
    ({ has_powerinfo := true, power_flags := 0x41, vb_mV := 3700 :
        DeviceState }).has_powerinfo = true ∧
    (snapshotEvent 2
        { has_powerinfo := true, power_flags := 0x41, vb_mV := 3700 }).battery
      = some { has_charging := true, charging := false,
               has_voltage := true, voltage := 3700 } :=
  ⟨rfl,
   (msg_power_status_spec 0 0x41 0 0 0 0 0 0 3700 0 0 2
      { has_powerinfo := true, power_flags := 0x41, vb_mV := 3700 }).2.2.1
     rfl⟩

/-- C8: a weather callback with temperature `t` (centi-degC) and humidity
`h` (deci-%) emits exactly one event whose only populated sub-record is
weather, carrying `t` and `h` unchanged; at `(2150, 455)` the log line's
interpolated numbers read 21.50 C, 70.700 F, 45.5%, and the event carries
weather `{temperature := 2150, humidity := 455}`; the device state
recorded for the callback holds the same pair. -/
theorem msg_weather_spec (t h : Nat) (st : DeviceState) :
    (msg_weather t h).2 =
      { weather := some { has_temperature := true, temperature := t,
                          has_humidity := true, humidity := h },
        battery := none, wire_change := [] } ∧
    ((nbp_store_weather st t h).has_weather = true ∧
      (nbp_store_weather st t h).temperature = t ∧
      (nbp_store_weather st t h).humidity = h) ∧
    msg_weather 2150 455 =
      ((21, 50, 70, 700, 45, 5),
       { weather := some { has_temperature := true, temperature := 2150,
                           has_humidity := true, humidity := 455 },
         battery := none, wire_change := [] }) :=
  ⟨rfl, ⟨rfl, rfl, rfl⟩, by decide⟩

/-- C9: a loop iteration whose blocking poll reports zero ready sources or
an error dispatches no handler at all and simply proceeds — its timer
behavior is exactly the deadline re-evaluation `loop_timer_step` performs
every iteration, unaffected by the poll outcome and regardless of any
readiness flags reported alongside the non-positive count. -/
theorem bridge_iteration_no_ready (now : Nat) (bs : BridgeState)
    (pollResult : Int) (rd rc rp : Bool) (h : pollResult ≤ 0) :
    bridge_iteration now bs pollResult rd rc rp
      = ((loop_timer_step now bs).1, (loop_timer_step now bs).2, []) := by
  simp [bridge_iteration, loop_dispatch, h]

/-- Witness for C9: a poll error (`-1`) at 100000 ms with a pending
deadline of 50000 ms and all readiness flags raised still dispatches
nothing. -/
theorem bridge_iteration_no_ready_witness :
    (-1 : Int) ≤ 0 ∧
    bridge_iteration 100000
        { fetHandlerRegistered := false, nextPeriodicReq := 50000,
          publisherBound := true } (-1) true true true
      = ((loop_timer_step 100000
            { fetHandlerRegistered := false, nextPeriodicReq := 50000,
              publisherBound := true }).1,
         (loop_timer_step 100000
            { fetHandlerRegistered := false, nextPeriodicReq := 50000,
              publisherBound := true }).2, []) :=
  ⟨by decide,
   bridge_iteration_no_ready 100000
     { fetHandlerRegistered := false, nextPeriodicReq := 50000,
       publisherBound := true } (-1) true true true (by decide)⟩

/-- C10: the Snapshot Builder's wire loop writes at most
`PB_HVACWIRES___COUNT` entries (so every write into the two arrays
allocated for that many elements stays in bounds), every emitted wire id
is below the count, and the loop queries the asserted state only at wire
ids `0 .. count - 1`: two states agreeing on that range produce identical
wire-change lists. -/
theorem buildWireChanges_safety (count : Nat) (fa fa2 : Nat → FabdTristate)
    (hagree : ∀ i, i < count → fa i = fa2 i) :
    (buildWireChanges count fa).length ≤ count ∧
    (∀ e ∈ buildWireChanges count fa, e.wire < count) ∧
    buildWireChanges count fa = buildWireChanges count fa2 := by
  refine ⟨?_, ?_, ?_⟩
  · calc (buildWireChanges count fa).length
        ≤ (List.range count).length := List.length_filterMap_le _ _
      _ = count := List.length_range count
  · intro e he
    obtain ⟨i, hi, -, rfl⟩ := (buildWireChanges_mem_iff count fa e).mp he
    exact hi
  · unfold buildWireChanges
    refine List.filterMap_congr fun a ha => ?_
    rw [hagree a (List.mem_range.mp ha)]

/-- Witness for C10 with two wires: the two states agree below the count
and differ above it, yet yield the same in-bounds wire-change list. -/
theorem buildWireChanges_safety_witness :
    (∀ i, i < 2 →
      (fun j => if j < 2 then FabdTristate.fts_true
        else FabdTristate.fts_unknown) i
        = (fun j => if j < 2 then FabdTristate.fts_true
            else FabdTristate.fts_false) i) ∧
    ((buildWireChanges 2 (fun j => if j < 2 then FabdTristate.fts_true
        else FabdTristate.fts_unknown)).length ≤ 2 ∧
      (∀ e ∈ buildWireChanges 2
          (fun j => if j < 2 then FabdTristate.fts_true
            else FabdTristate.fts_unknown), e.wire < 2) ∧
      buildWireChanges 2 (fun j => if j < 2 then FabdTristate.fts_true
          else FabdTristate.fts_unknown)
        = buildWireChanges 2
            (fun j => if j < 2 then FabdTristate.fts_true
              else FabdTristate.fts_false)) :=
  ⟨fun i hi => by simp [hi],
   buildWireChanges_safety 2
     (fun j => if j < 2 then FabdTristate.fts_true
       else FabdTristate.fts_unknown)
     (fun j => if j < 2 then FabdTristate.fts_true
       else FabdTristate.fts_false)
     (fun i hi => by simp [hi])⟩

end FreeAbode
